import Mathlib

/-!
Verification of the analytics core of the student-dashboard repository
(src/main.py): score normalization (normalize_value), GPA trend
projection (create_gpa_chart), cohort aggregation (the per-column
coerce-and-mean used by the radar and GPA charts), the help-status
classification (display_help_status), and the overview statistics in
main.

Embedding conventions:
- Python floats are idealized as exact rationals.
- A spreadsheet cell holds a PyVal; the pandas missing marker is the
  constructor PyVal.nan.
- A record (one student row) is an association list String x PyVal; a
  dictionary-style lookup of an absent key is modelled as none.
- A cohort dataframe is column-major: an association list from column
  name to the list of that column's cells.
- A Python computation that raises an exception is modelled as none in
  an Option-valued result; the doc comment of each definition says which
  exception the none stands for.
-/

/-- Python scalar values as they occur in loaded spreadsheet cells:
integers, floats (idealized as rationals), strings, and the missing
marker NaN (pandas fills empty cells with NaN). -/
inductive PyVal where
  | int : Int → PyVal
  | real : ℚ → PyVal
  | str : String → PyVal
  | nan : PyVal

deriving instance DecidableEq for PyVal

/-- Numeric view of a PyVal as used by Python arithmetic inside
normalize_value: none models an operand that raises TypeError (a
string), some none models a float NaN operand, some (some q) a number. -/
def pyToNum : PyVal → Option (Option ℚ)
  | PyVal.int n => some (some (n : ℚ))
  | PyVal.real q => some (some q)
  | PyVal.nan => some none
  | PyVal.str _ => none

/-- NaN-propagating subtraction on Python numbers (none = NaN). -/
def subN : Option ℚ → Option ℚ → Option ℚ
  | some a, some b => some (a - b)
  | _, _ => none

/-- Python min(100, x): returns x when x < 100, else the literal 100.
Every comparison with NaN is false, so min(100, NaN) = 100. -/
def min100 : Option ℚ → ℚ
  | some q => if q < 100 then q else 100
  | none => 100

/-- Python max(0, y) on the (already NaN-free) result of min100:
returns y when 0 < y, else the literal 0. -/
def max0 (q : ℚ) : ℚ := if 0 < q then q else 0

/-- normalize_value from src/main.py lines 71-75:
returns 0 when pd.isna(value); otherwise
max(0, min(100, ((value - min_val) / (max_val - min_val)) * 100)).
none models a raised exception: TypeError when a string operand reaches
the arithmetic, ZeroDivisionError when the bound difference is the
number 0 (a NaN bound difference does not raise; dividing by NaN yields
NaN, which the min/max chain then turns into 100). -/
def normalize_value (v lo hi : PyVal) : Option ℚ :=
  if v = PyVal.nan then some 0
  else
    match pyToNum v, pyToNum lo, pyToNum hi with
    | some a, some l, some h =>
      match subN h l with
      | none => some (max0 (min100 none))
      | some d =>
        if d = 0 then none
        else some (max0 (min100 ((subN a l).map (fun x => x / d * 100))))
    | _, _, _ => none

/-- The arithmetic core of normalize_value on plain numbers. -/
def normQ (x lo hi : ℚ) : ℚ := max 0 (min 100 ((x - lo) / (hi - lo) * 100))

theorem min100_eq (q : ℚ) : min100 (some q) = min 100 q := by
  simp only [min100, min_def]
  split_ifs <;> linarith

theorem max0_eq (q : ℚ) : max0 q = max 0 q := by
  simp only [max0, max_def]
  split_ifs <;> linarith

/-- On real-valued inputs with distinct bounds, normalize_value computes
exactly the clamped affine rescaling normQ. -/
theorem normalize_value_real (x lo hi : ℚ) (h : lo ≠ hi) :
    normalize_value (PyVal.real x) (PyVal.real lo) (PyVal.real hi) = some (normQ x lo hi) := by
  have hd : hi - lo ≠ 0 := sub_ne_zero.mpr (Ne.symm h)
  simp [normalize_value, pyToNum, subN, hd, min100_eq, max0_eq, normQ, div_eq_mul_inv]

/-- C1: for every numeric value v and real bounds with lo < hi,
normalize_value returns 0 whenever v ≤ lo, returns 100 whenever hi ≤ v,
is monotone non-decreasing in v, and its result normQ always lies in
[0, 100]. -/
theorem C1_normalize_clamp_monotone (v lo hi : ℚ) (h : lo < hi) :
    (v ≤ lo → normalize_value (PyVal.real v) (PyVal.real lo) (PyVal.real hi) = some 0) ∧
    (hi ≤ v → normalize_value (PyVal.real v) (PyVal.real lo) (PyVal.real hi) = some 100) ∧
    (∀ w : ℚ, v ≤ w → normQ v lo hi ≤ normQ w lo hi) ∧
    normalize_value (PyVal.real v) (PyVal.real lo) (PyVal.real hi) = some (normQ v lo hi) ∧
    0 ≤ normQ v lo hi ∧ normQ v lo hi ≤ 100 := by
  have hd : 0 < hi - lo := sub_pos.mpr h
  have hne : lo ≠ hi := ne_of_lt h
  refine ⟨?_, ?_, ?_, normalize_value_real v lo hi hne, le_max_left _ _,
    max_le (by norm_num) (min_le_left _ _)⟩
  · intro hv
    rw [normalize_value_real v lo hi hne]
    have h1 : (v - lo) / (hi - lo) ≤ 0 := by
      rw [div_nonpos_iff]
      exact Or.inr ⟨by linarith, by linarith⟩
    have h2 : (v - lo) / (hi - lo) * 100 ≤ 0 := by nlinarith
    have h3 : min 100 ((v - lo) / (hi - lo) * 100) ≤ 0 :=
      le_trans (min_le_right _ _) h2
    simp only [normQ, max_eq_left h3]
  · intro hv
    rw [normalize_value_real v lo hi hne]
    have h1 : (1 : ℚ) ≤ (v - lo) / (hi - lo) := by
      rw [le_div_iff₀ hd]
      linarith
    have h2 : (100 : ℚ) ≤ (v - lo) / (hi - lo) * 100 := by nlinarith
    simp only [normQ, min_eq_left h2]
    norm_num
  · intro w hw
    have hstep : (v - lo) / (hi - lo) * 100 ≤ (w - lo) / (hi - lo) * 100 := by
      have hinv : (0 : ℚ) ≤ (hi - lo)⁻¹ := inv_nonneg.mpr hd.le
      have h2 : (v - lo) * (hi - lo)⁻¹ ≤ (w - lo) * (hi - lo)⁻¹ :=
        mul_le_mul_of_nonneg_right (by linarith) hinv
      have h3 := mul_le_mul_of_nonneg_right h2 (by norm_num : (0 : ℚ) ≤ 100)
      simpa [div_eq_mul_inv] using h3
    exact max_le_max le_rfl (min_le_min le_rfl hstep)

/-- C1 witness: at v = 120, lo = 0, hi = 100 the clamping and range
facts hold concretely. -/
theorem C1_normalize_clamp_monotone_witness :
    (0 : ℚ) < 100 ∧
    (((120 : ℚ) ≤ 0 → normalize_value (PyVal.real 120) (PyVal.real 0) (PyVal.real 100) = some 0) ∧
    ((100 : ℚ) ≤ 120 → normalize_value (PyVal.real 120) (PyVal.real 0) (PyVal.real 100) = some 100) ∧
    (∀ w : ℚ, 120 ≤ w → normQ 120 0 100 ≤ normQ w 0 100) ∧
    normalize_value (PyVal.real 120) (PyVal.real 0) (PyVal.real 100) = some (normQ 120 0 100) ∧
    0 ≤ normQ 120 0 100 ∧ normQ 120 0 100 ≤ 100) :=
  ⟨by norm_num, C1_normalize_clamp_monotone 120 0 100 (by norm_num)⟩

/-- C7 counterexample: normalize_value is not total on every input; a
string value raises TypeError (none) and equal integer bounds raise
ZeroDivisionError (none), refuting the claim that every input, including
degenerate bounds and every value type, yields a defined output. -/
theorem C7_counterexample :
    normalize_value (PyVal.str "abc") (PyVal.int 0) (PyVal.int 100) = none ∧
    normalize_value (PyVal.int 5) (PyVal.int 3) (PyVal.int 3) = none := by
  constructor
  · simp [normalize_value, pyToNum]
  · simp [normalize_value, pyToNum, subN]

/-- C7 amended: normalize_value is a pure function that yields a defined
output for the missing marker (0, with any bounds at all) and for real
inputs with distinct bounds; but a string input raises TypeError and
equal real bounds raise ZeroDivisionError, so it is not total on every
value type or on degenerate bounds. -/
theorem C7_normalize_partial_totality :
    (∀ lo hi : PyVal, normalize_value PyVal.nan lo hi = some 0) ∧
    (∀ x l h : ℚ, l ≠ h →
      normalize_value (PyVal.real x) (PyVal.real l) (PyVal.real h) = some (normQ x l h)) ∧
    (∀ s : String, ∀ lo hi : PyVal, normalize_value (PyVal.str s) lo hi = none) ∧
    (∀ x l : ℚ, normalize_value (PyVal.real x) (PyVal.real l) (PyVal.real l) = none) := by
  refine ⟨fun lo hi => by simp [normalize_value], normalize_value_real, ?_, ?_⟩
  · intro s lo hi
    simp [normalize_value, pyToNum]
  · intro x l
    simp [normalize_value, pyToNum, subN]

/-- C7 amended witness: the defined-output branch evaluated at the
concrete input (50, 0, 100). -/
theorem C7_normalize_partial_totality_witness :
    normalize_value (PyVal.real 50) (PyVal.real 0) (PyVal.real 100) = some (normQ 50 0 100) :=
  C7_normalize_partial_totality.2.1 50 0 100 (by norm_num)

/-- C8: normalize_value on the missing marker returns 0 for any bounds
whatsoever (the pd.isna check fires before any arithmetic touches the
bounds). -/
theorem C8_missing_maps_to_zero (lo hi : PyVal) :
    normalize_value PyVal.nan lo hi = some 0 := by
  simp [normalize_value]

/-- Dictionary-style lookup on a student record, as Series.get /
dict.get with no default: first binding of the key wins, none models the
Python None returned for an absent key. -/
def recGet : List (String × PyVal) → String → Option PyVal
  | [], _ => none
  | p :: rest, k => if p.1 = k then some p.2 else recGet rest k

/-- Lookup with an explicit default, as student_data.get(key, default). -/
def recGetD (rec : List (String × PyVal)) (k : String) (d : PyVal) : PyVal :=
  (recGet rec k).getD d

/-- Value of a decimal digit character, none on a non-digit. -/
def digitVal (c : Char) : Option ℕ :=
  if c.isDigit then some (c.toNat - 48) else none

/-- Reads a digit string as a natural number; none when any character is
not a digit. An empty list reads as 0 (callers reject the all-empty
forms that Python float() rejects). -/
def parseNatDigits (cs : List Char) : Option ℕ :=
  cs.foldl
    (fun acc c =>
      match acc, digitVal c with
      | some n, some d => some (n * 10 + d)
      | _, _ => none)
    (some 0)

/-- Syntactic phase of reading a decimal string: sign flag, integer
digits, fraction digits, and fraction length; none when the string is
not of the accepted decimal form. -/
def parseDecimalParts (s : String) : Option (Bool × ℕ × ℕ × ℕ) :=
  let cs := s.toList
  let neg := decide (cs.head? = some '-')
  let body := if cs.head? = some '-' ∨ cs.head? = some '+' then cs.tail else cs
  let ip := body.takeWhile (fun c => c ≠ '.')
  let rest := body.dropWhile (fun c => c ≠ '.')
  match rest with
  | [] =>
    if ip.isEmpty then none
    else (parseNatDigits ip).map (fun n => (neg, n, 0, 0))
  | _ :: fp =>
    if ip.isEmpty && fp.isEmpty then none
    else
      match parseNatDigits ip, parseNatDigits fp with
      | some n, some f => some (neg, n, f, fp.length)
      | _, _ => none

/-- Numeric value of parsed decimal parts. -/
def ratOfParts (p : Bool × ℕ × ℕ × ℕ) : ℚ :=
  (if p.1 then -1 else 1) * ((p.2.1 : ℚ) + (p.2.2.1 : ℚ) / (10 : ℚ) ^ p.2.2.2)

/-- Numeric reading of a string, modelling what Python float(s) and
pd.to_numeric accept on the plain decimal forms occurring in the data:
an optional sign, digits, an optional fractional part ("3", "3.5", "5.",
".5"); anything else (e.g. "abc", "") is rejected (none = ValueError /
coerced to NaN). -/
def parseDecimal (s : String) : Option ℚ :=
  (parseDecimalParts s).map ratOfParts

/-- Element-level numeric coercion shared by pd.to_numeric(...,
errors='coerce') and the float(...) call in create_gpa_chart: numbers
pass through, numeric strings are parsed, everything else becomes
missing (none). The NaN case is guarded by pd.notna before every float()
call in the source, so mapping it to none here is unobservable. -/
def pyToNumeric : PyVal → Option ℚ
  | PyVal.int n => some (n : ℚ)
  | PyVal.real q => some q
  | PyVal.nan => none
  | PyVal.str s => parseDecimal s

/-- The three semester labels iterated in create_gpa_chart line 179. -/
def semLabels : List String := ["第一学期", "第二学期", "第三学期"]

/-- Column key for one semester's GPA, f-string sem + "绩点". -/
def gpaKey (sem : String) : String := sem ++ "绩点"

/-- One iteration of the collection loop of create_gpa_chart lines
179-188, for a looked-up cell v: an absent key or NaN value contributes
nothing; otherwise the semester label is appended to semesters, and the
value is appended to gpas only when float() succeeds (on a conversion
error the code prints a message and keeps going, so the label stays but
the value is dropped). -/
def collectStep (v : Option PyVal) (sem : String) (tl : List String × List ℚ) :
    List String × List ℚ :=
  match v with
  | none => tl
  | some w =>
    if w = PyVal.nan then tl
    else
      match pyToNumeric w with
      | some g => (sem :: tl.1, g :: tl.2)
      | none => (sem :: tl.1, tl.2)

/-- The collection loop of create_gpa_chart lines 179-188 over a list
of semester labels, in source order. -/
def collectFrom (rec : List (String × PyVal)) : List String → List String × List ℚ
  | [] => ([], [])
  | sem :: rest => collectStep (recGet rec (gpaKey sem)) sem (collectFrom rec rest)

/-- Collected (semesters, gpas) for one student record. -/
def collectGpas (rec : List (String × PyVal)) : List String × List ℚ :=
  collectFrom rec semLabels

/-- The fallback of create_gpa_chart lines 191-194: when fewer than two
semester LABELS were collected, both lists are replaced by the fixed
demo series; the check looks only at semesters, not at gpas. -/
def gpaSeries (rec : List (String × PyVal)) : List String × List ℚ :=
  let c := collectGpas rec
  if c.1.length < 2 then (semLabels, [3.2, 3.5, 3.1]) else c

/-- One collection step preserves "gpas never longer than semesters". -/
theorem collectStep_len (v : Option PyVal) (sem : String) (tl : List String × List ℚ)
    (h : tl.2.length ≤ tl.1.length) :
    (collectStep v sem tl).2.length ≤ (collectStep v sem tl).1.length := by
  cases v with
  | none => exact h
  | some w =>
    by_cases hw : w = PyVal.nan
    · simpa [collectStep, hw] using h
    · simp only [collectStep, if_neg hw]
      cases pyToNumeric w with
      | some g => simpa using h
      | none =>
        simp only [List.length_cons]
        exact le_trans h (Nat.le_succ _)

/-- In the collection loop, every value append is accompanied by a label
append, so gpas is never longer than semesters. -/
theorem collectFrom_len (rec : List (String × PyVal)) (l : List String) :
    (collectFrom rec l).2.length ≤ (collectFrom rec l).1.length := by
  induction l with
  | nil => exact le_refl 0
  | cons sem rest ih =>
    exact collectStep_len (recGet rec (gpaKey sem)) sem (collectFrom rec rest) ih

/-- Element i of a rational series, Python-list indexing (uses of nthQ
below stay within range). -/
def nthQ (ys : List ℚ) (i : ℕ) : ℚ := ys.getD i 0

/-- Sum of the index positions 0..n-1, as rationals. -/
def sumIdx (n : ℕ) : ℚ := ∑ i in Finset.range n, (i : ℚ)

/-- Sum of the squared index positions 0..n-1. -/
def sumIdxSq (n : ℕ) : ℚ := ∑ i in Finset.range n, (i : ℚ) ^ 2

/-- Sum of the series values. -/
def sumY (ys : List ℚ) : ℚ := ∑ i in Finset.range ys.length, nthQ ys i

/-- Sum of index times value. -/
def sumXY (ys : List ℚ) : ℚ := ∑ i in Finset.range ys.length, (i : ℚ) * nthQ ys i

/-- Determinant of the degree-1 normal equations over positions 0..n-1. -/
def fitDenom (n : ℕ) : ℚ := n * sumIdxSq n - sumIdx n ^ 2

/-- np.polyfit(np.arange(len(gpas)), gpas, 1) from create_gpa_chart
lines 239-240, in closed normal-equation form over exact rationals:
(slope, intercept) of the degree-1 least-squares fit. -/
def polyfit1 (ys : List ℚ) : ℚ × ℚ :=
  ((ys.length * sumXY ys - sumIdx ys.length * sumY ys) / fitDenom ys.length,
   (sumIdxSq ys.length * sumY ys - sumIdx ys.length * sumXY ys) / fitDenom ys.length)

/-- np.polyval for a degree-1 coefficient pair (slope, intercept). -/
def polyval1 (c : ℚ × ℚ) (x : ℚ) : ℚ := c.1 * x + c.2

/-- Sum of squared residuals of the line y = a*x + b against the series,
written from the claim's words "least-squares first-degree polynomial
fit over the index positions 0..n-1"; used to check that polyfit1 really
is that fit. -/
def sqErr (ys : List ℚ) (a b : ℚ) : ℚ :=
  ∑ i in Finset.range ys.length, (a * (i : ℚ) + b - nthQ ys i) ^ 2

/-- trend_line = np.polyval(coeffs, x_numeric) from line 241: the fitted
value at every observed index. -/
def trendLine (ys : List ℚ) : List ℚ :=
  (List.range ys.length).map (fun i : ℕ => polyval1 (polyfit1 ys) (i : ℚ))

/-- next_gpa from lines 245-248: the fit evaluated at the next integer
position len(gpas), clamped by max(0, min(4, .)) to the grade-point
range. -/
def nextGpa (ys : List ℚ) : ℚ :=
  max 0 (min 4 (polyval1 (polyfit1 ys) (ys.length : ℚ)))

/-- all_trend = list(trend_line) + [next_gpa] from line 252. -/
def allTrend (ys : List ℚ) : List ℚ := trendLine ys ++ [nextGpa ys]

theorem sumIdx_succ (n : ℕ) : sumIdx (n + 1) = sumIdx n + n := by
  simp [sumIdx, Finset.sum_range_succ]

theorem sumIdxSq_succ (n : ℕ) : sumIdxSq (n + 1) = sumIdxSq n + (n : ℚ) ^ 2 := by
  simp [sumIdxSq, Finset.sum_range_succ]

theorem sumIdx_closed (n : ℕ) : sumIdx n = n * (n - 1) / 2 := by
  induction n with
  | zero => simp [sumIdx]
  | succ m ih =>
    rw [sumIdx_succ, ih]
    push_cast
    ring

theorem sumIdxSq_closed (n : ℕ) : sumIdxSq n = n * (n - 1) * (2 * n - 1) / 6 := by
  induction n with
  | zero => simp [sumIdxSq]
  | succ m ih =>
    rw [sumIdxSq_succ, ih]
    push_cast
    ring

theorem fitDenom_closed (n : ℕ) : fitDenom n = n ^ 2 * (n - 1) * (n + 1) / 12 := by
  simp only [fitDenom, sumIdx_closed, sumIdxSq_closed]
  ring

/-- With at least two observations the index positions are not all
equal, so the normal-equation determinant is positive. -/
theorem fitDenom_pos (n : ℕ) (h : 2 ≤ n) : 0 < fitDenom n := by
  rw [fitDenom_closed]
  have h2 : (2 : ℚ) ≤ (n : ℚ) := by exact_mod_cast h
  have ha : (0 : ℚ) < (n : ℚ) ^ 2 := pow_pos (by linarith) 2
  have hb : (0 : ℚ) < (n : ℚ) - 1 := by linarith
  have hc : (0 : ℚ) < (n : ℚ) + 1 := by linarith
  exact div_pos (mul_pos (mul_pos ha hb) hc) (by norm_num)

theorem sum_resid (ys : List ℚ) (a b : ℚ) :
    ∑ i in Finset.range ys.length, (a * (i : ℚ) + b - nthQ ys i)
      = a * sumIdx ys.length + b * ys.length - sumY ys := by
  simp only [sumIdx, sumY]
  rw [Finset.sum_sub_distrib, Finset.sum_add_distrib, ← Finset.mul_sum,
    Finset.sum_const, Finset.card_range, nsmul_eq_mul]
  ring

theorem sum_residX (ys : List ℚ) (a b : ℚ) :
    ∑ i in Finset.range ys.length, (i : ℚ) * (a * (i : ℚ) + b - nthQ ys i)
      = a * sumIdxSq ys.length + b * sumIdx ys.length - sumXY ys := by
  have key : ∀ i ∈ Finset.range ys.length,
      (i : ℚ) * (a * (i : ℚ) + b - nthQ ys i)
        = a * (i : ℚ) ^ 2 + b * (i : ℚ) - (i : ℚ) * nthQ ys i := by
    intro i _
    ring
  rw [Finset.sum_congr rfl key, Finset.sum_sub_distrib, Finset.sum_add_distrib,
    ← Finset.mul_sum, ← Finset.mul_sum]
  simp only [sumIdxSq, sumIdx, sumXY]

/-- First normal equation: the fitted residuals sum to zero. -/
theorem polyfit1_normal1 (ys : List ℚ) (h : 2 ≤ ys.length) :
    (polyfit1 ys).1 * sumIdx ys.length + (polyfit1 ys).2 * ys.length = sumY ys := by
  have hne : fitDenom ys.length ≠ 0 := ne_of_gt (fitDenom_pos ys.length h)
  simp only [polyfit1, fitDenom] at hne ⊢
  field_simp
  ring

/-- Second normal equation: the index-weighted fitted residuals sum to
zero. -/
theorem polyfit1_normal2 (ys : List ℚ) (h : 2 ≤ ys.length) :
    (polyfit1 ys).1 * sumIdxSq ys.length + (polyfit1 ys).2 * sumIdx ys.length = sumXY ys := by
  have hne : fitDenom ys.length ≠ 0 := ne_of_gt (fitDenom_pos ys.length h)
  simp only [polyfit1, fitDenom] at hne ⊢
  field_simp
  ring

/-- Orthogonal decomposition of the squared error around any reference
line (p, q). -/
theorem sqErr_decomp (ys : List ℚ) (a b p q : ℚ) :
    sqErr ys a b = sqErr ys p q
      + 2 * (a - p) * (p * sumIdxSq ys.length + q * sumIdx ys.length - sumXY ys)
      + 2 * (b - q) * (p * sumIdx ys.length + q * ys.length - sumY ys)
      + ∑ i in Finset.range ys.length, ((a - p) * (i : ℚ) + (b - q)) ^ 2 := by
  have key : ∀ i ∈ Finset.range ys.length,
      (a * (i : ℚ) + b - nthQ ys i) ^ 2
        = (p * (i : ℚ) + q - nthQ ys i) ^ 2
          + 2 * (a - p) * ((i : ℚ) * (p * (i : ℚ) + q - nthQ ys i))
          + 2 * (b - q) * (p * (i : ℚ) + q - nthQ ys i)
          + ((a - p) * (i : ℚ) + (b - q)) ^ 2 := by
    intro i _
    ring
  simp only [sqErr]
  rw [Finset.sum_congr rfl key, Finset.sum_add_distrib, Finset.sum_add_distrib,
    Finset.sum_add_distrib, ← Finset.mul_sum, ← Finset.mul_sum, sum_residX, sum_resid]

/-- polyfit1 minimizes the sum of squared residuals among all lines. -/
theorem polyfit1_least_squares (ys : List ℚ) (h : 2 ≤ ys.length) (a b : ℚ) :
    sqErr ys (polyfit1 ys).1 (polyfit1 ys).2 ≤ sqErr ys a b := by
  have h1 := polyfit1_normal1 ys h
  have h2 := polyfit1_normal2 ys h
  rw [sqErr_decomp ys a b (polyfit1 ys).1 (polyfit1 ys).2]
  have hz1 : (polyfit1 ys).1 * sumIdxSq ys.length + (polyfit1 ys).2 * sumIdx ys.length
      - sumXY ys = 0 := by
    rw [h2, sub_self]
  have hz2 : (polyfit1 ys).1 * sumIdx ys.length + (polyfit1 ys).2 * (ys.length : ℚ)
      - sumY ys = 0 := by
    rw [h1, sub_self]
  rw [hz1, hz2, mul_zero, mul_zero, add_zero, add_zero]
  have hsum : (0 : ℚ) ≤ ∑ i in Finset.range ys.length,
      ((a - (polyfit1 ys).1) * (i : ℚ) + (b - (polyfit1 ys).2)) ^ 2 :=
    Finset.sum_nonneg fun i _ => sq_nonneg _
  linarith

/-- Concrete fit for the sample series: slope -1/20, intercept 199/60,
so the value projected at position 3 is 19/6, already inside [0, 4]. -/
theorem nextGpa_sample : nextGpa [3.2, 3.5, 3.1] = 19 / 6 := by
  norm_num [nextGpa, polyval1, polyfit1, fitDenom, sumIdx, sumIdxSq, sumY, sumXY, nthQ,
    Finset.sum_range_succ]

/-- C2: for every series with at least two present values, the trend
output is the fitted line with exactly one forward-looking point
appended; the appended value is the degree-1 fit evaluated at the next
integer position len(gpas), clamped to [0, 4]; and polyfit1 is genuinely
the least-squares first-degree fit over index positions 0..n-1 (it
minimizes the sum of squared residuals among all lines). For a 3-point
series the appended point is the fit at index 3, clamped. -/
theorem C2_projection_least_squares (gpas : List ℚ) (h : 2 ≤ gpas.length) :
    allTrend gpas = trendLine gpas ++ [nextGpa gpas] ∧
    (allTrend gpas).length = gpas.length + 1 ∧
    (allTrend gpas).getLast? = some (nextGpa gpas) ∧
    nextGpa gpas = max 0 (min 4 (polyval1 (polyfit1 gpas) (gpas.length : ℚ))) ∧
    (∀ a b : ℚ, sqErr gpas (polyfit1 gpas).1 (polyfit1 gpas).2 ≤ sqErr gpas a b) ∧
    (gpas.length = 3 → nextGpa gpas = max 0 (min 4 (polyval1 (polyfit1 gpas) 3))) := by
  refine ⟨rfl, ?_, ?_, rfl, polyfit1_least_squares gpas h, ?_⟩
  · simp only [allTrend]
    rw [List.length_append, List.length_singleton, trendLine, List.length_map,
      List.length_range]
  · simp only [allTrend]
    exact List.getLast?_concat _
  · intro h3
    simp only [nextGpa, h3]
    norm_num

/-- C2 witness: the sample series [3.2, 3.5, 3.1] has three present
values and the projection facts hold on it concretely. -/
theorem C2_projection_least_squares_witness :
    2 ≤ ([3.2, 3.5, 3.1] : List ℚ).length ∧
    (allTrend [3.2, 3.5, 3.1] = trendLine [3.2, 3.5, 3.1] ++ [nextGpa [3.2, 3.5, 3.1]] ∧
    (allTrend [3.2, 3.5, 3.1]).length = ([3.2, 3.5, 3.1] : List ℚ).length + 1 ∧
    (allTrend [3.2, 3.5, 3.1]).getLast? = some (nextGpa [3.2, 3.5, 3.1]) ∧
    nextGpa [3.2, 3.5, 3.1]
      = max 0 (min 4 (polyval1 (polyfit1 [3.2, 3.5, 3.1])
          ((([3.2, 3.5, 3.1] : List ℚ).length : ℕ) : ℚ))) ∧
    (∀ a b : ℚ, sqErr [3.2, 3.5, 3.1] (polyfit1 [3.2, 3.5, 3.1]).1
        (polyfit1 [3.2, 3.5, 3.1]).2 ≤ sqErr [3.2, 3.5, 3.1] a b) ∧
    (([3.2, 3.5, 3.1] : List ℚ).length = 3 →
      nextGpa [3.2, 3.5, 3.1] = max 0 (min 4 (polyval1 (polyfit1 [3.2, 3.5, 3.1]) 3)))) :=
  ⟨by norm_num, C2_projection_least_squares [3.2, 3.5, 3.1] (by norm_num)⟩

/-- C3 counterexample: a record holding only the non-convertible strings
"abc" and "xyz" in two semester fields has zero present numerically
convertible values, yet the default series is NOT substituted: the
fallback check counts collected labels (cells present and non-missing,
convertible or not), so the result keeps two labels with an empty value
list instead of becoming the default series. -/
theorem C3_counterexample :
    gpaSeries [("第一学期绩点", PyVal.str "abc"), ("第二学期绩点", PyVal.str "xyz")]
      = (["第一学期", "第二学期"], []) ∧
    (collectGpas [("第一学期绩点", PyVal.str "abc"),
        ("第二学期绩点", PyVal.str "xyz")]).2.length = 0 ∧
    (["第一学期", "第二学期"], ([] : List ℚ)) ≠ (semLabels, ([3.2, 3.5, 3.1] : List ℚ)) := by
  refine ⟨?_, ?_, ?_⟩
  · simp [gpaSeries, collectGpas, collectFrom, collectStep, semLabels, gpaKey, recGet,
      pyToNumeric, parseDecimal,
      show parseDecimalParts "abc" = none from by decide,
      show parseDecimalParts "xyz" = none from by decide]
  · simp [collectGpas, collectFrom, collectStep, semLabels, gpaKey, recGet,
      pyToNumeric, parseDecimal,
      show parseDecimalParts "abc" = none from by decide,
      show parseDecimalParts "xyz" = none from by decide]
  · simp [semLabels]

/-- C3 amended: the fallback triggers exactly when fewer than two of the
three semester keys are present with a non-missing value — numeric
convertibility is not part of the check: in that case both lists are
replaced by the default [3.2, 3.5, 3.1] over the three placeholder
periods, otherwise the collected series is kept unchanged. -/
theorem C3_default_series_fallback (rec : List (String × PyVal)) :
    ((collectGpas rec).1.length < 2 → gpaSeries rec = (semLabels, [3.2, 3.5, 3.1])) ∧
    (2 ≤ (collectGpas rec).1.length → gpaSeries rec = collectGpas rec) := by
  constructor
  · intro h
    simp only [gpaSeries]
    rw [if_pos h]
  · intro h
    simp only [gpaSeries]
    rw [if_neg (Nat.not_lt.mpr h)]

/-- C3 amended witness: one single present value (with two keys missing)
triggers the fallback concretely. -/
theorem C3_default_series_fallback_witness :
    gpaSeries [("第三学期绩点", PyVal.real 3.0)] = (semLabels, [3.2, 3.5, 3.1]) :=
  (C3_default_series_fallback [("第三学期绩点", PyVal.real 3.0)]).1
    (by simp [collectGpas, collectFrom, collectStep, semLabels, gpaKey, recGet, pyToNumeric])

/-- Column lookup on the cohort dataframe. none models the state in
which df[name] raises KeyError (callers that use "name in df" guards or
df.get match on the none themselves). -/
def colGet : List (String × List PyVal) → String → Option (List PyVal)
  | [], _ => none
  | c :: rest, name => if c.1 = name then some c.2 else colGet rest name

/-- The values of a column that survive pd.to_numeric(...,
errors='coerce'): non-numeric and missing entries are dropped. -/
def numericVals (col : List PyVal) : List ℚ := col.filterMap pyToNumeric

/-- pd.to_numeric(df[col], errors='coerce').mean(): the arithmetic mean
over the values that survive coercion. The pandas mean of a selection
with no values left is the float NaN, modelled as none (a value, not an
exception). -/
def colMean (col : List PyVal) : Option ℚ :=
  let vs := numericVals col
  if vs = [] then none else some (vs.sum / vs.length)

/-- One class-average aggregate, as in create_radar_chart lines 104-112
and main line 215: pd.to_numeric(df[name], errors='coerce').mean() when
the column exists, else the literal 0. -/
def classAvgField (df : List (String × List PyVal)) (name : String) : Option ℚ :=
  match colGet df name with
  | some col => colMean col
  | none => some 0

/-- C4 counterexample: over a cohort whose 德育 column holds only the
non-numeric strings "abc" and "好", the aggregate is the NaN mean
(none), not the claimed defined value 0; the 0 default applies only when
the column itself is absent. -/
theorem C4_counterexample :
    classAvgField [("德育", [PyVal.str "abc", PyVal.str "好"])] "德育" = none ∧
    classAvgField [("德育", [PyVal.str "abc", PyVal.str "好"])] "德育" ≠ some 0 := by
  have h : classAvgField [("德育", [PyVal.str "abc", PyVal.str "好"])] "德育" = none := by
    simp [classAvgField, colGet, colMean, numericVals, pyToNumeric, parseDecimal,
      show parseDecimalParts "abc" = none from by decide,
      show parseDecimalParts "好" = none from by decide]
  refine ⟨h, ?_⟩
  rw [h]
  intro hc
  exact Option.noConfusion hc

/-- C4 amended: aggregation coerces the column to numeric, ignores
non-numeric and missing entries, and returns the arithmetic mean of the
remaining values; when no values remain the result is the missing marker
NaN (pandas mean of an empty selection), not 0 — the defined 0 default
applies only when the column is absent from the cohort. -/
theorem C4_coerce_mean_semantics (df : List (String × List PyVal)) (name : String)
    (col : List PyVal) :
    (colGet df name = some col → numericVals col ≠ [] →
      classAvgField df name = some ((numericVals col).sum / (numericVals col).length)) ∧
    (colGet df name = some col → numericVals col = [] →
      classAvgField df name = none) ∧
    (colGet df name = none → classAvgField df name = some 0) := by
  refine ⟨?_, ?_, ?_⟩
  · intro hc hne
    simp [classAvgField, hc, colMean, hne]
  · intro hc he
    simp [classAvgField, hc, colMean, he]
  · intro hc
    simp [classAvgField, hc]

/-- C4 amended witness: a column with values 3, "abc", 4 keeps the
numeric values [3, 4] and aggregates to their mean. -/
theorem C4_coerce_mean_semantics_witness :
    classAvgField [("智育", [PyVal.int 3, PyVal.str "abc", PyVal.int 4])] "智育"
      = some ((numericVals [PyVal.int 3, PyVal.str "abc", PyVal.int 4]).sum
          / (numericVals [PyVal.int 3, PyVal.str "abc", PyVal.int 4]).length) :=
  (C4_coerce_mean_semantics [("智育", [PyVal.int 3, PyVal.str "abc", PyVal.int 4])] "智育"
      [PyVal.int 3, PyVal.str "abc", PyVal.int 4]).1
    (by simp [colGet])
    (by simp [numericVals, pyToNumeric, parseDecimal,
      show parseDecimalParts "abc" = none from by decide])

/-- The field consulted by the needs-help classification. -/
def helpField : String := "有无需要学院协助解决的困难"

/-- display_help_status line 338: help_needed is True iff
student_data.get('有无需要学院协助解决的困难') is not in
[None, '无', np.nan]; an absent key gives Python None (none here), a
missing cell gives np.nan. -/
def display_help_status (rec : List (String × PyVal)) : Bool :=
  let v := recGet rec helpField
  if v = none ∨ v = some (PyVal.str "无") ∨ v = some PyVal.nan then false else true

/-- C5: the classification returns NOT-needing-help exactly when the
field is missing (absent key), null (NaN), or the literal "无"; every
other value — including any other non-empty string — is classified as
needing help. -/
theorem C5_help_needed_iff (rec : List (String × PyVal)) :
    display_help_status rec = false ↔
      (recGet rec helpField = none ∨ recGet rec helpField = some (PyVal.str "无") ∨
        recGet rec helpField = some PyVal.nan) := by
  by_cases h : recGet rec helpField = none ∨ recGet rec helpField = some (PyVal.str "无") ∨
      recGet rec helpField = some PyVal.nan
  · simp [display_help_status, h]
  · simp [display_help_status, h]

/-- C10: the empty string is not in [None, '无', np.nan], so a record
whose difficulty field holds "" is classified as needing help. -/
theorem C10_empty_string_needs_help :
    display_help_status [(helpField, PyVal.str "")] = true := by
  simp [display_help_status, recGet, helpField]

/-- Helper: with at least two collected labels the fallback branch of
gpaSeries is not taken. -/
theorem gpaSeries_keep (rec : List (String × PyVal))
    (h : 2 ≤ (collectGpas rec).1.length) : gpaSeries rec = collectGpas rec := by
  simp only [gpaSeries]
  rw [if_neg (Nat.not_lt.mpr h)]

/-- Count of rows with a present value other than "无" in the difficulty
column, main lines 738-740: len(df[df[col].notna() & (df[col] != '无')]).
none models the KeyError raised by df[col] when the column is absent. -/
def helpNeededCount (df : List (String × List PyVal)) : Option ℕ :=
  (colGet df helpField).map (fun col =>
    (col.filter (fun v => decide (v ≠ PyVal.nan) && decide (v ≠ PyVal.str "无"))).length)

/-- Count of rows with any award present, main line 743:
len(df[df['人民奖学金'].notna() | df['助学金'].notna()]). none models the
KeyError raised when either column is absent. -/
def awardCount (df : List (String × List PyVal)) : Option ℕ :=
  match colGet df "人民奖学金", colGet df "助学金" with
  | some a, some b =>
    some (((a.zip b).filter
      (fun p => decide (p.1 ≠ PyVal.nan) || decide (p.2 ≠ PyVal.nan))).length)
  | _, _ => none

/-- The overview-statistics block of main lines 737-744 (total_students
= len(df) cannot raise and is omitted). The block sits outside every
try/except, so a none (KeyError) aborts the render run instead of being
defaulted. -/
def overviewStats (df : List (String × List PyVal)) : Option (ℕ × ℕ) :=
  match helpNeededCount df, awardCount df with
  | some h, some a => some (h, a)
  | _, _ => none

/-- C6 counterexample: a cohort whose only column is 学号 lacks the
difficulty and award columns; the overview statistics reference them
with direct df[...] indexing and raise KeyError (none) instead of
substituting a default and continuing. -/
theorem C6_counterexample :
    overviewStats [("学号", [PyVal.int 1])] = none := by
  simp [overviewStats, helpNeededCount, awardCount, colGet, helpField]

/-- C6 amended: record-level field access via .get never raises — an
absent key yields exactly the supplied default — but the cohort-level
column references of the overview statistics raise KeyError whenever the
difficulty column or an award column is absent from the cohort. -/
theorem C6_absent_field_behaviour (rec : List (String × PyVal))
    (df : List (String × List PyVal)) :
    (∀ k : String, ∀ d : PyVal, recGet rec k = none → recGetD rec k d = d) ∧
    (colGet df helpField = none → overviewStats df = none) ∧
    (colGet df "人民奖学金" = none → overviewStats df = none) := by
  refine ⟨?_, ?_, ?_⟩
  · intro k d h
    simp [recGetD, h]
  · intro h
    simp [overviewStats, helpNeededCount, h]
  · intro h
    have ha : awardCount df = none := by
      simp [awardCount, h]
    cases hh : helpNeededCount df <;> simp [overviewStats, hh, ha]

/-- C6 amended witness: the defaulted record lookup and the raising
overview statistics, both at concrete inputs. -/
theorem C6_absent_field_behaviour_witness :
    recGetD [] "姓名" (PyVal.str "未知") = PyVal.str "未知" ∧
    overviewStats [("姓名", [PyVal.str "甲"])] = none :=
  ⟨(C6_absent_field_behaviour [] [("姓名", [PyVal.str "甲"])]).1 "姓名" (PyVal.str "未知") rfl,
   (C6_absent_field_behaviour [] [("姓名", [PyVal.str "甲"])]).2.1
     (by simp [colGet, helpField])⟩

/-- Forecast label f'第{len(gpas)+1}学期(预测)' from main line 244. -/
def nextLabel (n : ℕ) : String := "第" ++ toString (n + 1) ++ "学期(预测)"

/-- Per-semester class averages for the GPA chart, main lines 211-221:
the column mean when the semester column exists, else the default 3.0. -/
def classAvgGpas (df : List (String × List PyVal)) (sems : List String) : List (Option ℚ) :=
  sems.map (fun sem =>
    match colGet df (gpaKey sem) with
    | some col => colMean col
    | none => some 3)

/-- The numeric payload of the figure built by create_gpa_chart:
the personal trace, the optional class-average trace, and — when at
least two gpas were collected — the trend trace and the single
prediction point. -/
structure GpaChart where
  personal : List String × List ℚ
  classAvg : Option (List (Option ℚ))
  trend : Option (List String × List ℚ)
  prediction : Option (String × ℚ)

/-- create_gpa_chart lines 170-272: collect the series (with fallback),
draw the personal trace from it, optionally the class-average trace, and
when len(gpas) >= 2 the trend line over all_semesters = semesters +
[next_semester] with values all_trend = trend_line + [next_gpa], plus
the star marker at the predicted point. -/
def create_gpa_chart (rec : List (String × PyVal))
    (df : Option (List (String × List PyVal))) : GpaChart :=
  let s := gpaSeries rec
  { personal := s
    classAvg := df.map (fun d => classAvgGpas d s.1)
    trend :=
      if 2 ≤ s.2.length
        then some (s.1 ++ [nextLabel s.2.length], allTrend s.2)
        else none
    prediction :=
      if 2 ≤ s.2.length
        then some (nextLabel s.2.length, nextGpa s.2)
        else none }

/-- C9: for a record with at least two present convertible values and
any cohort argument, the fallback is not taken; the chart's personal
trace is exactly the collected input series, unaltered (the construction
is pure: the input series reappears unchanged in the output); the trend
trace carries the original labels plus exactly one appended forecast
label; and exactly one projected point is appended. -/
theorem C9_appends_one_point_no_mutation (rec : List (String × PyVal))
    (df : Option (List (String × List PyVal)))
    (h : 2 ≤ (collectGpas rec).2.length) :
    gpaSeries rec = collectGpas rec ∧
    (create_gpa_chart rec df).personal = collectGpas rec ∧
    (create_gpa_chart rec df).trend
      = some ((collectGpas rec).1 ++ [nextLabel (collectGpas rec).2.length],
          trendLine (collectGpas rec).2 ++ [nextGpa (collectGpas rec).2]) ∧
    (create_gpa_chart rec df).prediction
      = some (nextLabel (collectGpas rec).2.length, nextGpa (collectGpas rec).2) := by
  have h1 : 2 ≤ (collectGpas rec).1.length :=
    le_trans h (collectFrom_len rec semLabels)
  have hs : gpaSeries rec = collectGpas rec := gpaSeries_keep rec h1
  refine ⟨hs, ?_, ?_, ?_⟩
  · simp [create_gpa_chart, hs]
  · simp [create_gpa_chart, hs, h, allTrend]
  · simp [create_gpa_chart, hs, h]

/-- C9 witness: a record with the three sample gpas present, no cohort. -/
theorem C9_appends_one_point_no_mutation_witness :
    gpaSeries [("第一学期绩点", PyVal.real 3.2), ("第二学期绩点", PyVal.real 3.5),
        ("第三学期绩点", PyVal.real 3.1)]
      = collectGpas [("第一学期绩点", PyVal.real 3.2), ("第二学期绩点", PyVal.real 3.5),
          ("第三学期绩点", PyVal.real 3.1)] ∧
    (create_gpa_chart [("第一学期绩点", PyVal.real 3.2), ("第二学期绩点", PyVal.real 3.5),
        ("第三学期绩点", PyVal.real 3.1)] none).personal
      = collectGpas [("第一学期绩点", PyVal.real 3.2), ("第二学期绩点", PyVal.real 3.5),
          ("第三学期绩点", PyVal.real 3.1)] ∧
    (create_gpa_chart [("第一学期绩点", PyVal.real 3.2), ("第二学期绩点", PyVal.real 3.5),
        ("第三学期绩点", PyVal.real 3.1)] none).trend
      = some ((collectGpas [("第一学期绩点", PyVal.real 3.2), ("第二学期绩点", PyVal.real 3.5),
            ("第三学期绩点", PyVal.real 3.1)]).1
          ++ [nextLabel (collectGpas [("第一学期绩点", PyVal.real 3.2),
              ("第二学期绩点", PyVal.real 3.5), ("第三学期绩点", PyVal.real 3.1)]).2.length],
          trendLine (collectGpas [("第一学期绩点", PyVal.real 3.2),
              ("第二学期绩点", PyVal.real 3.5), ("第三学期绩点", PyVal.real 3.1)]).2
          ++ [nextGpa (collectGpas [("第一学期绩点", PyVal.real 3.2),
              ("第二学期绩点", PyVal.real 3.5), ("第三学期绩点", PyVal.real 3.1)]).2]) ∧
    (create_gpa_chart [("第一学期绩点", PyVal.real 3.2), ("第二学期绩点", PyVal.real 3.5),
        ("第三学期绩点", PyVal.real 3.1)] none).prediction
      = some (nextLabel (collectGpas [("第一学期绩点", PyVal.real 3.2),
            ("第二学期绩点", PyVal.real 3.5), ("第三学期绩点", PyVal.real 3.1)]).2.length,
          nextGpa (collectGpas [("第一学期绩点", PyVal.real 3.2),
              ("第二学期绩点", PyVal.real 3.5), ("第三学期绩点", PyVal.real 3.1)]).2) :=
  C9_appends_one_point_no_mutation
    [("第一学期绩点", PyVal.real 3.2), ("第二学期绩点", PyVal.real 3.5),
      ("第三学期绩点", PyVal.real 3.1)] none
    (by simp [collectGpas, collectFrom, collectStep, semLabels, gpaKey, recGet, pyToNumeric])
